import Mathlib

/-!
# Verification of `pick.h` — slot table, result mapping and completion bridge

Shallow embedding of the request-lifecycle core of `src/pick.h`:
the Emscripten request slot table (`pick__alloc_req`, `pick__clear_req`),
the three delivery entry points (`pick__deliver_single`,
`pick__deliver_multi_lines`, `pick__deliver_msg`), the browser-backend
public operations (`pick_file`, `pick_files`, `pick_folder`,
`pick_folders`, `pick_save`, `pick_export_file`, `pick_message`,
`pick_alert`, `pick_confirm`) and the macOS result mapper
(`pick_objc_button_result`).

Modelling conventions:
* C strings are `List Char` (the bytes before the terminating NUL);
  a nullable `const char *` is `Option (List Char)`.
* Function pointers are modelled by a `Bool` recording whether the
  pointer is non-null; an actual callback invocation is recorded as a
  `CallbackCall` value carrying the arguments the C code passes.
* Calls into the JavaScript glue (`pick_js_*`) do not touch the slot
  table; they are recorded as `JsCall` values.  Arguments of those glue
  calls that no statement below concerns (accept/filter string, style
  token, icon token, custom icon URL) are omitted from the record.
* `malloc` is modelled as always succeeding.
* The C `int` cursor increment in `pick__alloc_req` is modelled with an
  explicit two's-complement wrap at 2^31 (`wrap32`).
-/

namespace Pick

/-- A C string: the characters before the terminating NUL. -/
abbrev CStr := List Char

/-- C enum `PickButtonType` (src/pick.h, lines 319-324). -/
inductive PickButtonType
  | PICK_BUTTON_OK
  | PICK_BUTTON_OK_CANCEL
  | PICK_BUTTON_YES_NO
  | PICK_BUTTON_YES_NO_CANCEL
deriving DecidableEq, Repr

/-- C enum `PickButtonResult` (src/pick.h, lines 335-341). -/
inductive PickButtonResult
  | PICK_RESULT_OK
  | PICK_RESULT_CANCEL
  | PICK_RESULT_YES
  | PICK_RESULT_NO
  | PICK_RESULT_CLOSED
deriving DecidableEq, Repr

/-- C enum `pick__req_kind_t` (src/pick.h, lines 1321-1330). -/
inductive pick__req_kind_t
  | PICK_REQ_NONE
  | PICK_REQ_OPEN_SINGLE
  | PICK_REQ_OPEN_MULTI
  | PICK_REQ_OPEN_DIR_SINGLE
  | PICK_REQ_OPEN_DIR_MULTI
  | PICK_REQ_SAVE
  | PICK_REQ_MESSAGE
  | PICK_REQ_EXPORT
deriving DecidableEq, Repr

/-- C struct `pick__em_req_t` (src/pick.h, lines 1334-1342).  The four function
pointers are modelled by whether they are non-null; `user` is dropped
because no statement below distinguishes user-context values. -/
structure pick__em_req_t where
  kind : pick__req_kind_t
  single_cb : Bool
  multi_cb : Bool
  msg_cb : Bool
  result_cb : Bool
  button_type : PickButtonType
deriving DecidableEq, Repr

/-- The C value `(pick__em_req_t){0}`: the all-zero slot value (kind `PICK_REQ_NONE`,
all callback pointers null, `button_type` = 0 = `PICK_BUTTON_OK`). -/
def emReqZero : pick__em_req_t :=
  { kind := .PICK_REQ_NONE
    single_cb := false
    multi_cb := false
    msg_cb := false
    result_cb := false
    button_type := .PICK_BUTTON_OK }

/-- Macro `PICK_EM_MAX_REQUESTS` (src/pick.h, line 1310), default 64. -/
def PICK_EM_MAX_REQUESTS : Int := 64

/-- The Emscripten-backend global state: the slot array `g_reqs`
(indices 0 .. PICK_EM_MAX_REQUESTS-1; modelled as a total function on
`Int`, only indices in range are ever read or written by the code) and
the rotating cursor `_g_next_req_id`. -/
structure EmState where
  reqs : Int → pick__em_req_t
  next_req_id : Int

/-- The zero-initialised globals: empty slot table, `_g_next_req_id = 1`
(src/pick.h, lines 1344-1345). -/
def pickEmInitState : EmState :=
  { reqs := fun _ => emReqZero, next_req_id := 1 }

/-- Two's-complement wrap of a C `int` value into [-2^31, 2^31). -/
def wrap32 (x : Int) : Int := (x + 2 ^ 31) % 2 ^ 32 - 2 ^ 31

/-- One iteration of the scan loop of `pick__alloc_req` (src/pick.h,
lines 1347-1355): take `id = _g_next_req_id++` (wrapping, with the
`<= 0` reset), and if `id` is out of range reset it to 1 and the cursor
to 2.  Returns the candidate id (always in [1, 63]) and the state with
the advanced cursor. -/
def pick__alloc_try (st : EmState) : Int × EmState :=
  if st.next_req_id ≤ 0 ∨ PICK_EM_MAX_REQUESTS ≤ st.next_req_id then
    (1, { st with next_req_id := 2 })
  else
    (st.next_req_id,
     { st with next_req_id :=
        if wrap32 (st.next_req_id + 1) ≤ 0 then 1
        else wrap32 (st.next_req_id + 1) })

/-- The `for (tries..)` loop of `pick__alloc_req`: try up to `fuel`
candidate ids, returning the first whose slot has kind
`PICK_REQ_NONE`, or 0 when the tries are exhausted. -/
def pick__alloc_loop : Nat → EmState → Int × EmState
  | 0, st => (0, st)
  | Nat.succ tries, st =>
    if (st.reqs (pick__alloc_try st).1).kind = .PICK_REQ_NONE then
      pick__alloc_try st
    else pick__alloc_loop tries (pick__alloc_try st).2

/-- Function `pick__alloc_req` (src/pick.h, lines 1347-1355): scan at most
`PICK_EM_MAX_REQUESTS` (= 64) candidates from the rotating cursor. -/
def pick__alloc_req (st : EmState) : Int × EmState :=
  pick__alloc_loop 64 st

/-- Function `pick__clear_req` (src/pick.h, line 1356):
`if (id > 0 && id < PICK_EM_MAX_REQUESTS) g_reqs[id] = (pick__em_req_t){0};` -/
def pick__clear_req (st : EmState) (id : Int) : EmState :=
  if 0 < id ∧ id < PICK_EM_MAX_REQUESTS then
    { st with reqs := fun j => if j = id then emReqZero else st.reqs j }
  else st

/-- The store `g_reqs[id] = r` — the unconditional designated-initialiser store
performed by the public operations after a successful allocation. -/
def storeReq (st : EmState) (id : Int) (r : pick__em_req_t) : EmState :=
  { st with reqs := fun j => if j = id then r else st.reqs j }

/-- One observable user-callback invocation, with the arguments the C
code passes: `single path` is `single_cb(path, user)` (`none` = NULL);
`multi none` is `multi_cb(NULL, 0, user)` and `multi (some ps)` is
`multi_cb(arr, count, user)` with `arr` holding `ps` in order;
`msg r` is `msg_cb(r, user)`; `result ok` is `result_cb(ok, user)`. -/
inductive CallbackCall
  | single (path : Option CStr)
  | multi (paths : Option (List CStr))
  | msg (result : PickButtonResult)
  | result (ok : Bool)
deriving DecidableEq, Repr

/-- Function `pick__deliver_single` (src/pick.h, lines 1863-1884): look up the
slot, clear it, then dispatch on the stored kind. -/
def pick__deliver_single (st : EmState) (id : Int) (path : Option CStr) :
    EmState × List CallbackCall :=
  if id ≤ 0 ∨ PICK_EM_MAX_REQUESTS ≤ id then (st, [])
  else
    let req := st.reqs id
    let st' := pick__clear_req st id
    match req.kind with
    | .PICK_REQ_OPEN_SINGLE | .PICK_REQ_OPEN_DIR_SINGLE | .PICK_REQ_SAVE =>
      (st', if req.single_cb then [.single path] else [])
    | .PICK_REQ_OPEN_MULTI | .PICK_REQ_OPEN_DIR_MULTI =>
      (st', if req.multi_cb then [.multi none] else [])
    | .PICK_REQ_MESSAGE =>
      (st', if req.msg_cb then [.msg .PICK_RESULT_OK] else [])
    | _ => (st', [])

/-- The newline-splitting loop of `pick__deliver_multi_lines`
(src/pick.h, lines 1910-1922): cut the payload at each `'\n'` and at the
final NUL, so a payload with `k` newlines yields `k+1` segments
(a trailing newline yields a trailing empty segment, exactly as the C
loop does). -/
def pick__split_lines : CStr → List CStr
  | [] => [[]]
  | c :: rest =>
    if c = '\n' then [] :: pick__split_lines rest
    else
      match pick__split_lines rest with
      | [] => [[c]]
      | seg :: segs => (c :: seg) :: segs

/-- Function `pick__deliver_multi_lines` (src/pick.h, lines 1886-1926). -/
def pick__deliver_multi_lines (st : EmState) (id : Int) (lines : Option CStr) :
    EmState × List CallbackCall :=
  if id ≤ 0 ∨ PICK_EM_MAX_REQUESTS ≤ id then (st, [])
  else
    let req := st.reqs id
    let st' := pick__clear_req st id
    match lines with
    | none =>
      (st', if req.multi_cb then [.multi none]
            else if req.single_cb then [.single none] else [])
    | some l =>
      if l = [] then
        (st', if req.multi_cb then [.multi none]
              else if req.single_cb then [.single none] else [])
      else if (req.kind = .PICK_REQ_OPEN_DIR_SINGLE ∨
               req.kind = .PICK_REQ_OPEN_SINGLE) ∧ req.single_cb = true then
        (st', [.single (some (l.takeWhile (fun c => c ≠ '\n')))])
      else if req.multi_cb = false then
        (st', if req.single_cb then [.single none] else [])
      else
        (st', [.multi (some (pick__split_lines l))])

/-- Function `pick__deliver_msg` (src/pick.h, lines 1928-1972). -/
def pick__deliver_msg (st : EmState) (id : Int) (button_idx : Int) :
    EmState × List CallbackCall :=
  if id ≤ 0 ∨ PICK_EM_MAX_REQUESTS ≤ id then (st, [])
  else
    let req := st.reqs id
    let st' := pick__clear_req st id
    if req.kind = .PICK_REQ_MESSAGE then
      if req.msg_cb then
        let result : PickButtonResult :=
          match req.button_type with
          | .PICK_BUTTON_OK =>
            if button_idx = 0 then .PICK_RESULT_OK else .PICK_RESULT_CLOSED
          | .PICK_BUTTON_OK_CANCEL =>
            if button_idx = 0 then .PICK_RESULT_CANCEL
            else if button_idx = 1 then .PICK_RESULT_OK
            else .PICK_RESULT_CLOSED
          | .PICK_BUTTON_YES_NO =>
            if button_idx = 0 then .PICK_RESULT_NO
            else if button_idx = 1 then .PICK_RESULT_YES
            else .PICK_RESULT_CLOSED
          | .PICK_BUTTON_YES_NO_CANCEL =>
            if button_idx = 0 then .PICK_RESULT_CANCEL
            else if button_idx = 1 then .PICK_RESULT_NO
            else if button_idx = 2 then .PICK_RESULT_YES
            else .PICK_RESULT_CLOSED
        (st', [.msg result])
      else (st', [])
    else if req.kind = .PICK_REQ_EXPORT then
      (st', if req.result_cb then [.result (decide (button_idx = 0))] else [])
    else (st', [])

/-- C struct `PickFileOptions` (src/pick.h, lines 362-372), restricted to the
fields the modelled operations read (`title`, `default_name`,
`allow_multiple`); the remaining fields (`default_path`, filters,
`can_create_dirs`, `parent_handle`) are only forwarded to platform glue
no statement below concerns. -/
structure PickFileOptions where
  title : Option CStr
  default_name : Option CStr
  allow_multiple : Bool
deriving DecidableEq, Repr

/-- The C value `(PickFileOptions){0}`. -/
def pickFileOptionsZero : PickFileOptions :=
  { title := none, default_name := none, allow_multiple := false }

/-- C struct `PickMessageOptions` (src/pick.h, lines 374-383), restricted to the
fields the modelled operations read (`title`, `message`, `buttons`);
style/icon fields are only forwarded to platform glue. -/
structure PickMessageOptions where
  title : Option CStr
  message : Option CStr
  buttons : PickButtonType
deriving DecidableEq, Repr

/-- One call into the JavaScript glue (`pick_js_*`), recording the
request id and the arguments statements below concern.  String
arguments that are pure presentation (accept string, style token, icon
token, custom icon URL) are omitted. -/
inductive JsCall
  | initBuckets
  | jsOpen (req_id : Int) (title : CStr)
      (allow_dirs allow_files allow_multiple : Int)
  | jsSave (req_id : Int) (title suggested : CStr)
  | jsExport (req_id : Int) (src suggested : CStr)
  | jsCreateDialog (req_id : Int) (title message : CStr)
  | jsAppendAction (label action : CStr)
  | jsBindMessageHandlers (req_id : Int) (button_count : Int)
deriving DecidableEq, Repr

def strOK : CStr := ['O', 'K']
def strok : CStr := ['o', 'k']
def strCancel : CStr := ['C', 'a', 'n', 'c', 'e', 'l']
def strcancel : CStr := ['c', 'a', 'n', 'c', 'e', 'l']
def strYes : CStr := ['Y', 'e', 's']
def stryes : CStr := ['y', 'e', 's']
def strNo : CStr := ['N', 'o']
def strno : CStr := ['n', 'o']
def strUntitled : CStr := ['u', 'n', 't', 'i', 't', 'l', 'e', 'd']

/-- Emscripten `pick_file` (src/pick.h, lines 1978-1988).  `cb` records
whether the caller passed a non-null callback.  Returns the new state,
the user-callback invocations performed synchronously, and the JS glue
calls made. -/
def pick_file (st : EmState) (options : Option PickFileOptions) (cb : Bool) :
    EmState × List CallbackCall × List JsCall :=
  let a := pick__alloc_req st
  if a.1 = 0 then
    (a.2, (if cb then [.single none] else []), [.initBuckets])
  else
    let st2 := storeReq a.2 a.1
      { emReqZero with kind := .PICK_REQ_OPEN_SINGLE, single_cb := cb }
    (st2, [],
     [.initBuckets,
      .jsOpen a.1 ((options.bind (·.title)).getD []) 0 1
        (if (options.map (·.allow_multiple)).getD false then 1 else 0)])

/-- Emscripten `pick_files` (src/pick.h, lines 1990-1999): note the
literal `1` passed for `allow_multiple`. -/
def pick_files (st : EmState) (options : Option PickFileOptions) (cb : Bool) :
    EmState × List CallbackCall × List JsCall :=
  let a := pick__alloc_req st
  if a.1 = 0 then
    (a.2, (if cb then [.multi none] else []), [.initBuckets])
  else
    let st2 := storeReq a.2 a.1
      { emReqZero with kind := .PICK_REQ_OPEN_MULTI, multi_cb := cb }
    (st2, [],
     [.initBuckets, .jsOpen a.1 ((options.bind (·.title)).getD []) 0 1 1])

/-- Emscripten `pick_folder` (src/pick.h, lines 2001-2009). -/
def pick_folder (st : EmState) (options : Option PickFileOptions) (cb : Bool) :
    EmState × List CallbackCall × List JsCall :=
  let a := pick__alloc_req st
  if a.1 = 0 then
    (a.2, (if cb then [.single none] else []), [.initBuckets])
  else
    let st2 := storeReq a.2 a.1
      { emReqZero with kind := .PICK_REQ_OPEN_DIR_SINGLE, single_cb := cb }
    (st2, [],
     [.initBuckets, .jsOpen a.1 ((options.bind (·.title)).getD []) 1 0 0])

/-- Emscripten `pick_folders` (src/pick.h, lines 2011-2019): note the
literal `1` passed for `allow_multiple`. -/
def pick_folders (st : EmState) (options : Option PickFileOptions) (cb : Bool) :
    EmState × List CallbackCall × List JsCall :=
  let a := pick__alloc_req st
  if a.1 = 0 then
    (a.2, (if cb then [.multi none] else []), [.initBuckets])
  else
    let st2 := storeReq a.2 a.1
      { emReqZero with kind := .PICK_REQ_OPEN_DIR_MULTI, multi_cb := cb }
    (st2, [],
     [.initBuckets, .jsOpen a.1 ((options.bind (·.title)).getD []) 1 0 1])

/-- Emscripten `pick_save` (src/pick.h, lines 2021-2030). -/
def pick_save (st : EmState) (options : Option PickFileOptions) (cb : Bool) :
    EmState × List CallbackCall × List JsCall :=
  let a := pick__alloc_req st
  if a.1 = 0 then
    (a.2, (if cb then [.single none] else []), [.initBuckets])
  else
    let st2 := storeReq a.2 a.1
      { emReqZero with kind := .PICK_REQ_SAVE, single_cb := cb }
    (st2, [],
     [.initBuckets,
      .jsSave a.1 ((options.bind (·.title)).getD [])
        ((options.bind (·.default_name)).getD strUntitled)])

/-- Emscripten `pick_export_file` (src/pick.h, lines 2032-2041). -/
def pick_export_file (st : EmState) (src_path : Option CStr)
    (options : Option PickFileOptions) (done : Bool) :
    EmState × List CallbackCall × List JsCall :=
  let a := pick__alloc_req st
  if a.1 = 0 then
    (a.2, (if done then [.result false] else []), [.initBuckets])
  else
    let st2 := storeReq a.2 a.1
      { emReqZero with kind := .PICK_REQ_EXPORT, result_cb := done }
    (st2, [],
     [.initBuckets,
      .jsExport a.1 (src_path.getD [])
        ((options.bind (·.default_name)).getD [])])

/-- Emscripten `pick_message` (src/pick.h, lines 2052-2099): allocate a
slot, store the message callback and button configuration, create the
overlay dialog and append its action buttons in DOM order (Cancel/No
before the primary action). -/
def pick_message (st : EmState) (opts : Option PickMessageOptions) (cb : Bool) :
    EmState × List CallbackCall × List JsCall :=
  let a := pick__alloc_req st
  if a.1 = 0 then
    (a.2, (if cb then [.msg .PICK_RESULT_CLOSED] else []), [])
  else
    let btns := (opts.map (·.buttons)).getD .PICK_BUTTON_OK
    let st2 := storeReq a.2 a.1
      { emReqZero with kind := .PICK_REQ_MESSAGE, msg_cb := cb,
                       button_type := btns }
    let actions : List JsCall :=
      match btns with
      | .PICK_BUTTON_OK => [.jsAppendAction strOK strok]
      | .PICK_BUTTON_OK_CANCEL =>
        [.jsAppendAction strCancel strcancel, .jsAppendAction strOK strok]
      | .PICK_BUTTON_YES_NO =>
        [.jsAppendAction strNo strno, .jsAppendAction strYes stryes]
      | .PICK_BUTTON_YES_NO_CANCEL =>
        [.jsAppendAction strCancel strcancel, .jsAppendAction strNo strno,
         .jsAppendAction strYes stryes]
    let button_count : Int :=
      if btns = .PICK_BUTTON_OK then 1
      else if btns = .PICK_BUTTON_OK_CANCEL ∨ btns = .PICK_BUTTON_YES_NO then 2
      else 3
    (st2, [],
     .jsCreateDialog a.1 ((opts.bind (·.title)).getD [])
         ((opts.bind (·.message)).getD []) ::
       actions ++ [.jsBindMessageHandlers a.1 button_count])

/-- Emscripten `pick_alert` (src/pick.h, lines 2101-2110): a
fire-and-forget `pick_message` with OK buttons and a NULL callback. -/
def pick_alert (st : EmState) (title message : Option CStr) :
    EmState × List CallbackCall × List JsCall :=
  pick_message st
    (some { title := title, message := message, buttons := .PICK_BUTTON_OK })
    false

/-- Emscripten `pick_confirm` (src/pick.h, lines 2112-2122). -/
def pick_confirm (st : EmState) (title message : Option CStr) (cb : Bool) :
    EmState × List CallbackCall × List JsCall :=
  pick_message st
    (some { title := title, message := message,
            buttons := .PICK_BUTTON_OK_CANCEL })
    cb

/-! ## macOS backend: result mapper and panel construction -/

/-- Constant `NSAlertFirstButtonReturn` (src/pick.h, line 506). -/
def NSAlertFirstButtonReturn : Int := 1000
/-- Constant `NSAlertSecondButtonReturn` (src/pick.h, line 507). -/
def NSAlertSecondButtonReturn : Int := 1001
/-- Constant `NSAlertThirdButtonReturn` (src/pick.h, line 508). -/
def NSAlertThirdButtonReturn : Int := 1002

/-- Function `pick_objc_button_result` (src/pick.h, lines 727-806), with the
diagnostic `printf` calls dropped.  In C an invalid `buttons` enum value
falls through every `switch` to the final CLOSED fallback; the Lean
`PickButtonType` is closed, so only the four real values exist. -/
def pick_objc_button_result (response : Int) (buttons : PickButtonType) :
    PickButtonResult :=
  if response = NSAlertFirstButtonReturn then
    match buttons with
    | .PICK_BUTTON_OK => .PICK_RESULT_OK
    | .PICK_BUTTON_OK_CANCEL => .PICK_RESULT_OK
    | .PICK_BUTTON_YES_NO => .PICK_RESULT_YES
    | .PICK_BUTTON_YES_NO_CANCEL => .PICK_RESULT_YES
  else if response = NSAlertSecondButtonReturn then
    match buttons with
    | .PICK_BUTTON_OK => .PICK_RESULT_CLOSED
    | .PICK_BUTTON_OK_CANCEL => .PICK_RESULT_CANCEL
    | .PICK_BUTTON_YES_NO => .PICK_RESULT_NO
    | .PICK_BUTTON_YES_NO_CANCEL => .PICK_RESULT_NO
  else if response = NSAlertThirdButtonReturn then
    if buttons = .PICK_BUTTON_YES_NO_CANCEL then .PICK_RESULT_CANCEL
    else .PICK_RESULT_CLOSED
  else .PICK_RESULT_CLOSED

/-- The `setAllowsMultipleSelection:` argument computed by
`pick_objc_create_open_panel` (src/pick.h, lines 636-638):
`(options && options->allow_multiple) ? YES : NO`. -/
def pick_objc_panel_allows_multiple (options : Option PickFileOptions) : Bool :=
  match options with
  | some o => o.allow_multiple
  | none => false

/-- The effective options built by macOS `pick_files` (src/pick.h,
lines 1018-1023): `opts = options ? *options : (PickFileOptions){0};
opts.allow_multiple = true;` before the panel is created. -/
def pick_objc_pick_files_opts (options : Option PickFileOptions) :
    PickFileOptions :=
  { options.getD pickFileOptionsZero with allow_multiple := true }

/-- The effective options built by macOS `pick_folders` (src/pick.h,
lines 1124-1129), identical overwrite of `allow_multiple`. -/
def pick_objc_pick_folders_opts (options : Option PickFileOptions) :
    PickFileOptions :=
  { options.getD pickFileOptionsZero with allow_multiple := true }

/-! ## Spec §4.2 mapping tables (stated from the spec's words, to be
compared with the code's mappers) -/

/-- The native return positions of spec §4.2's first table. -/
inductive NativePosition
  | first
  | second
  | third
  | outside
deriving DecidableEq, Repr

/-- Classify an `NSModalResponse` value into spec §4.2's positions:
the three `NSAlert*ButtonReturn` constants, anything else `outside`. -/
def responsePosition (response : Int) : NativePosition :=
  if response = NSAlertFirstButtonReturn then .first
  else if response = NSAlertSecondButtonReturn then .second
  else if response = NSAlertThirdButtonReturn then .third
  else .outside

/-- The native-return mapping table of spec §4.2, row by row:
OK → OK/CLOSED/CLOSED; OK_CANCEL → OK/CANCEL/CLOSED;
YES_NO → YES/NO/CLOSED; YES_NO_CANCEL → YES/NO/CANCEL;
any position outside {first, second, third} → CLOSED. -/
def mapNativeResult (buttons : PickButtonType) (pos : NativePosition) :
    PickButtonResult :=
  match buttons, pos with
  | .PICK_BUTTON_OK, .first => .PICK_RESULT_OK
  | .PICK_BUTTON_OK_CANCEL, .first => .PICK_RESULT_OK
  | .PICK_BUTTON_YES_NO, .first => .PICK_RESULT_YES
  | .PICK_BUTTON_YES_NO_CANCEL, .first => .PICK_RESULT_YES
  | .PICK_BUTTON_OK, .second => .PICK_RESULT_CLOSED
  | .PICK_BUTTON_OK_CANCEL, .second => .PICK_RESULT_CANCEL
  | .PICK_BUTTON_YES_NO, .second => .PICK_RESULT_NO
  | .PICK_BUTTON_YES_NO_CANCEL, .second => .PICK_RESULT_NO
  | .PICK_BUTTON_OK, .third => .PICK_RESULT_CLOSED
  | .PICK_BUTTON_OK_CANCEL, .third => .PICK_RESULT_CLOSED
  | .PICK_BUTTON_YES_NO, .third => .PICK_RESULT_CLOSED
  | .PICK_BUTTON_YES_NO_CANCEL, .third => .PICK_RESULT_CANCEL
  | _, .outside => .PICK_RESULT_CLOSED

/-- The browser-index mapping table of spec §4.2 (0-based DOM append
order): OK → [OK]; OK_CANCEL → [CANCEL, OK]; YES_NO → [NO, YES];
YES_NO_CANCEL → [CANCEL, NO, YES]; any index outside the
configuration's defined range → CLOSED. -/
def mapBrowserIndex (buttons : PickButtonType) (idx : Int) :
    PickButtonResult :=
  match buttons with
  | .PICK_BUTTON_OK =>
    if idx = 0 then .PICK_RESULT_OK else .PICK_RESULT_CLOSED
  | .PICK_BUTTON_OK_CANCEL =>
    if idx = 0 then .PICK_RESULT_CANCEL
    else if idx = 1 then .PICK_RESULT_OK
    else .PICK_RESULT_CLOSED
  | .PICK_BUTTON_YES_NO =>
    if idx = 0 then .PICK_RESULT_NO
    else if idx = 1 then .PICK_RESULT_YES
    else .PICK_RESULT_CLOSED
  | .PICK_BUTTON_YES_NO_CANCEL =>
    if idx = 0 then .PICK_RESULT_CANCEL
    else if idx = 1 then .PICK_RESULT_NO
    else if idx = 2 then .PICK_RESULT_YES
    else .PICK_RESULT_CLOSED

/-- The join of an ordered path sequence with `'\n'` separators — the
form of the `newlineJoinedPaths` payload the JS glue hands to
`pick__deliver_multi_lines`. -/
def pick__join_lines : List CStr → CStr
  | [] => []
  | [p] => p
  | p :: q :: ps => p ++ '\n' :: pick__join_lines (q :: ps)

/-- Number of scan steps before the candidate sequence started at cursor
`c` tries id `j` (for `j` in [1, 63]): the candidates run `c, c+1, …,
63` and then wrap to `1, 2, …`; a cursor outside [1, 63] is normalised
to candidate 1 on the first step. -/
def allocDist (c j : Int) : Int :=
  if 1 ≤ c ∧ c ≤ 63 then (if c ≤ j then j - c else 63 - c + j) else j - 1

/-! ### Concrete fixtures used by the witness theorems -/

/-- An occupied slot (a pending single-file request). -/
def busyReq : pick__em_req_t :=
  { emReqZero with kind := .PICK_REQ_OPEN_SINGLE, single_cb := true }

/-- A state in which every slot is occupied (saturation). -/
def satSt : EmState := { reqs := fun _ => busyReq, next_req_id := 1 }

/-- A state in which slot 5 holds `r` and every other slot is occupied. -/
def fixtureSt (r : pick__em_req_t) : EmState :=
  { reqs := fun j => if j = 5 then r else busyReq, next_req_id := 1 }

/-- A pending message request with YES/NO/CANCEL buttons. -/
def msgReqYNC : pick__em_req_t :=
  { emReqZero with kind := .PICK_REQ_MESSAGE, msg_cb := true,
                   button_type := .PICK_BUTTON_YES_NO_CANCEL }

/-- A pending export request. -/
def exportReq : pick__em_req_t :=
  { emReqZero with kind := .PICK_REQ_EXPORT, result_cb := true }

/-- A pending multi-file request. -/
def multiReq : pick__em_req_t :=
  { emReqZero with kind := .PICK_REQ_OPEN_MULTI, multi_cb := true }

/-- A pending single-file request. -/
def singleReq : pick__em_req_t :=
  { emReqZero with kind := .PICK_REQ_OPEN_SINGLE, single_cb := true }

/-- A pending save request. -/
def saveReq : pick__em_req_t :=
  { emReqZero with kind := .PICK_REQ_SAVE, single_cb := true }

/-! ## Helper lemmas: the allocator -/

theorem wrap32_small {x : Int} (h0 : 0 ≤ x) (h1 : x < 2 ^ 31) : wrap32 x = x := by
  unfold wrap32
  omega

theorem pick__alloc_try_reqs (st : EmState) :
    (pick__alloc_try st).2.reqs = st.reqs := by
  unfold pick__alloc_try
  split <;> rfl

theorem pick__alloc_try_fst_range (st : EmState) :
    1 ≤ (pick__alloc_try st).1 ∧ (pick__alloc_try st).1 < 64 := by
  unfold pick__alloc_try PICK_EM_MAX_REQUESTS
  split <;> rename_i hc <;> dsimp only <;> omega

theorem pick__alloc_loop_reqs :
    ∀ (f : Nat) (st : EmState), (pick__alloc_loop f st).2.reqs = st.reqs
  | 0, _ => rfl
  | Nat.succ f, st => by
    unfold pick__alloc_loop
    split
    · exact pick__alloc_try_reqs st
    · rw [pick__alloc_loop_reqs f, pick__alloc_try_reqs]

theorem pick__alloc_loop_sound :
    ∀ (f : Nat) (st : EmState), (pick__alloc_loop f st).1 ≠ 0 →
      1 ≤ (pick__alloc_loop f st).1 ∧ (pick__alloc_loop f st).1 < 64 ∧
        (st.reqs (pick__alloc_loop f st).1).kind = .PICK_REQ_NONE
  | 0, _, h => absurd rfl h
  | Nat.succ f, st, h => by
    unfold pick__alloc_loop at h ⊢
    by_cases hfree : (st.reqs (pick__alloc_try st).1).kind = .PICK_REQ_NONE
    · rw [if_pos hfree] at h ⊢
      exact ⟨(pick__alloc_try_fst_range st).1, (pick__alloc_try_fst_range st).2,
        hfree⟩
    · rw [if_neg hfree] at h ⊢
      have := pick__alloc_loop_sound f (pick__alloc_try st).2 h
      rwa [pick__alloc_try_reqs] at this

/-- Saturation: when every slot 1..63 is occupied, the scan returns 0. -/
theorem pick__alloc_loop_saturated :
    ∀ (f : Nat) (st : EmState),
      (∀ j : Int, 1 ≤ j → j < 64 → (st.reqs j).kind ≠ .PICK_REQ_NONE) →
      (pick__alloc_loop f st).1 = 0
  | 0, _, _ => rfl
  | Nat.succ f, st, hsat => by
    unfold pick__alloc_loop
    split <;> rename_i hfree
    · exact absurd hfree
        (hsat _ (pick__alloc_try_fst_range st).1 (pick__alloc_try_fst_range st).2)
    · have hsat' : ∀ j : Int, 1 ≤ j → j < 64 →
          (((pick__alloc_try st).2).reqs j).kind ≠ .PICK_REQ_NONE := by
        rw [pick__alloc_try_reqs]; exact hsat
      exact pick__alloc_loop_saturated f _ hsat'

theorem allocDist_nonneg {c j : Int} (h1 : 1 ≤ j) (h2 : j < 64) :
    0 ≤ allocDist c j := by
  unfold allocDist
  split_ifs <;> omega

theorem allocDist_lt_64 {c j : Int} (h1 : 1 ≤ j) (h2 : j < 64) :
    allocDist c j < 64 := by
  unfold allocDist
  split_ifs <;> omega

/-- When the first candidate's slot is occupied but slot `j` is free,
the candidate was not `j` and the distance to `j` shrinks by one. -/
theorem allocDist_step (st : EmState) (j : Int) (h1 : 1 ≤ j) (h2 : j < 64)
    (hfree : (st.reqs j).kind = .PICK_REQ_NONE)
    (hbusy : (st.reqs (pick__alloc_try st).1).kind ≠ .PICK_REQ_NONE) :
    1 ≤ allocDist st.next_req_id j ∧
      allocDist (pick__alloc_try st).2.next_req_id j =
        allocDist st.next_req_id j - 1 := by
  have hne : (pick__alloc_try st).1 ≠ j := by
    intro h
    exact hbusy (h ▸ hfree)
  unfold pick__alloc_try at hne ⊢
  by_cases hc : st.next_req_id ≤ 0 ∨ PICK_EM_MAX_REQUESTS ≤ st.next_req_id
  · rw [if_pos hc] at hne ⊢
    unfold PICK_EM_MAX_REQUESTS at hc
    unfold allocDist
    dsimp only at hne ⊢
    split_ifs <;> omega
  · rw [if_neg hc] at hne ⊢
    unfold PICK_EM_MAX_REQUESTS at hc
    push_neg at hc
    unfold allocDist wrap32
    dsimp only at hne ⊢
    split_ifs <;> omega

theorem pick__alloc_loop_complete :
    ∀ (f : Nat) (st : EmState) (j : Int), 1 ≤ j → j < 64 →
      (st.reqs j).kind = .PICK_REQ_NONE →
      allocDist st.next_req_id j < (f : Int) →
      (pick__alloc_loop f st).1 ≠ 0
  | 0, st, j, h1, h2, _, hd => by
    have := allocDist_nonneg (c := st.next_req_id) h1 h2
    simp at hd
    omega
  | Nat.succ f, st, j, h1, h2, hfree, hd => by
    unfold pick__alloc_loop
    split <;> rename_i hchk
    · have := pick__alloc_try_fst_range st
      omega
    · have hstep := allocDist_step st j h1 h2 hfree hchk
      have hfree' : (((pick__alloc_try st).2).reqs j).kind = .PICK_REQ_NONE := by
        rw [pick__alloc_try_reqs]; exact hfree
      refine pick__alloc_loop_complete f _ j h1 h2 hfree' ?_
      omega

theorem pick__alloc_req_reqs (st : EmState) :
    (pick__alloc_req st).2.reqs = st.reqs :=
  pick__alloc_loop_reqs 64 st

theorem pick__alloc_req_sound (st : EmState)
    (h : (pick__alloc_req st).1 ≠ 0) :
    1 ≤ (pick__alloc_req st).1 ∧ (pick__alloc_req st).1 < 64 ∧
      (st.reqs (pick__alloc_req st).1).kind = .PICK_REQ_NONE :=
  pick__alloc_loop_sound 64 st h

theorem pick__alloc_req_saturated (st : EmState)
    (hsat : ∀ j : Int, 1 ≤ j → j < 64 → (st.reqs j).kind ≠ .PICK_REQ_NONE) :
    (pick__alloc_req st).1 = 0 :=
  pick__alloc_loop_saturated 64 st hsat

theorem pick__alloc_req_complete (st : EmState) (j : Int)
    (h1 : 1 ≤ j) (h2 : j < 64)
    (hfree : (st.reqs j).kind = .PICK_REQ_NONE) :
    (pick__alloc_req st).1 ≠ 0 := by
  refine pick__alloc_loop_complete 64 st j h1 h2 hfree ?_
  have := allocDist_lt_64 (c := st.next_req_id) h1 h2
  push_cast
  omega

/-! ## Helper lemmas: delivery -/

theorem pick__clear_req_self (st : EmState) (id : Int)
    (h1 : 0 < id) (h2 : id < PICK_EM_MAX_REQUESTS) :
    (pick__clear_req st id).reqs id = emReqZero := by
  unfold pick__clear_req
  rw [if_pos ⟨h1, h2⟩]
  simp

theorem pick__clear_req_other (st : EmState) (id j : Int) (hj : j ≠ id) :
    (pick__clear_req st id).reqs j = st.reqs j := by
  unfold pick__clear_req
  split
  · simp [hj]
  · rfl

theorem pick__deliver_single_fst (st : EmState) (id : Int) (path : Option CStr) :
    (pick__deliver_single st id path).1 =
      if id ≤ 0 ∨ PICK_EM_MAX_REQUESTS ≤ id then st else pick__clear_req st id := by
  unfold pick__deliver_single
  split
  · rfl
  · dsimp only
    split <;> rfl

theorem pick__deliver_multi_lines_fst (st : EmState) (id : Int)
    (lines : Option CStr) :
    (pick__deliver_multi_lines st id lines).1 =
      if id ≤ 0 ∨ PICK_EM_MAX_REQUESTS ≤ id then st else pick__clear_req st id := by
  unfold pick__deliver_multi_lines
  split
  · rfl
  · dsimp only
    cases lines
    · rfl
    · dsimp only
      split_ifs <;> rfl

theorem pick__deliver_msg_fst (st : EmState) (id : Int) (button_idx : Int) :
    (pick__deliver_msg st id button_idx).1 =
      if id ≤ 0 ∨ PICK_EM_MAX_REQUESTS ≤ id then st else pick__clear_req st id := by
  unfold pick__deliver_msg
  split
  · rfl
  · dsimp only
    split_ifs <;> rfl

theorem pick__deliver_single_cleared (st : EmState) (id : Int)
    (path : Option CStr) (h : st.reqs id = emReqZero) :
    (pick__deliver_single st id path).2 = [] := by
  unfold pick__deliver_single
  split
  · rfl
  · dsimp only
    rw [h]
    rfl

theorem pick__deliver_multi_lines_cleared (st : EmState) (id : Int)
    (lines : Option CStr) (h : st.reqs id = emReqZero) :
    (pick__deliver_multi_lines st id lines).2 = [] := by
  unfold pick__deliver_multi_lines
  split
  · rfl
  · dsimp only
    rw [h]
    cases lines with
    | none => rfl
    | some l =>
      by_cases hl : l = [] <;> simp [hl, emReqZero]

theorem pick__deliver_msg_cleared (st : EmState) (id : Int)
    (button_idx : Int) (h : st.reqs id = emReqZero) :
    (pick__deliver_msg st id button_idx).2 = [] := by
  unfold pick__deliver_msg
  split
  · rfl
  · dsimp only
    rw [h]
    rfl

theorem pick__deliver_single_len (st : EmState) (id : Int)
    (path : Option CStr) :
    (pick__deliver_single st id path).2.length ≤ 1 := by
  unfold pick__deliver_single
  split
  · simp
  · dsimp only
    split <;> (try split_ifs) <;> simp

theorem pick__deliver_multi_lines_len (st : EmState) (id : Int)
    (lines : Option CStr) :
    (pick__deliver_multi_lines st id lines).2.length ≤ 1 := by
  unfold pick__deliver_multi_lines
  split
  · simp
  · dsimp only
    cases lines
    · dsimp only
      split_ifs <;> simp
    · dsimp only
      split_ifs <;> simp

theorem pick__deliver_msg_len (st : EmState) (id : Int) (button_idx : Int) :
    (pick__deliver_msg st id button_idx).2.length ≤ 1 := by
  unfold pick__deliver_msg
  split
  · simp
  · dsimp only
    split_ifs <;> simp

/-! ## Helper lemmas: line splitting -/

theorem pick__split_lines_no_nl :
    ∀ l : CStr, '\n' ∉ l → pick__split_lines l = [l]
  | [], _ => rfl
  | c :: rest, h => by
    have hc : c ≠ '\n' := by
      intro hc
      exact h (hc ▸ List.mem_cons_self c rest)
    have hr : '\n' ∉ rest := fun hm => h (List.mem_cons_of_mem c hm)
    unfold pick__split_lines
    rw [if_neg hc, pick__split_lines_no_nl rest hr]

theorem pick__split_lines_append (p rest : CStr) (hp : '\n' ∉ p) :
    pick__split_lines (p ++ '\n' :: rest) = p :: pick__split_lines rest := by
  induction p with
  | nil =>
    show pick__split_lines ('\n' :: rest) = [] :: pick__split_lines rest
    simp only [pick__split_lines]
    simp
  | cons c p ih =>
    have hc : c ≠ '\n' := by
      intro hc
      exact hp (hc ▸ List.mem_cons_self c p)
    have hp' : '\n' ∉ p := fun hm => hp (List.mem_cons_of_mem c hm)
    show pick__split_lines (c :: (p ++ '\n' :: rest)) = _
    simp only [pick__split_lines]
    rw [if_neg hc, ih hp']

/-- Round trip: splitting a newline-join of `'\n'`-free paths recovers
exactly the original ordered sequence. -/
theorem pick__split_join :
    ∀ ps : List CStr, ps ≠ [] → (∀ p ∈ ps, '\n' ∉ p) →
      pick__split_lines (pick__join_lines ps) = ps
  | [], hne, _ => absurd rfl hne
  | [p], _, hnl => by
    show pick__split_lines (pick__join_lines [p]) = [p]
    unfold pick__join_lines
    exact pick__split_lines_no_nl p (hnl p (List.mem_cons_self p []))
  | p :: q :: ps, _, hnl => by
    show pick__split_lines (p ++ '\n' :: pick__join_lines (q :: ps)) = _
    rw [pick__split_lines_append p _ (hnl p (List.mem_cons_self _ _)),
      pick__split_join (q :: ps) (by simp)
        (fun x hx => hnl x (List.mem_cons_of_mem p hx))]

theorem pick__deliver_single_out (st : EmState) (id : Int) (path : Option CStr)
    (hr : id ≤ 0 ∨ PICK_EM_MAX_REQUESTS ≤ id) :
    pick__deliver_single st id path = (st, []) := by
  unfold pick__deliver_single
  rw [if_pos hr]

theorem pick__deliver_multi_lines_out (st : EmState) (id : Int)
    (lines : Option CStr) (hr : id ≤ 0 ∨ PICK_EM_MAX_REQUESTS ≤ id) :
    pick__deliver_multi_lines st id lines = (st, []) := by
  unfold pick__deliver_multi_lines
  rw [if_pos hr]

theorem pick__deliver_msg_out (st : EmState) (id : Int) (button_idx : Int)
    (hr : id ≤ 0 ∨ PICK_EM_MAX_REQUESTS ≤ id) :
    pick__deliver_msg st id button_idx = (st, []) := by
  unfold pick__deliver_msg
  rw [if_pos hr]

theorem takeWhile_no_nl :
    ∀ l : CStr, '\n' ∉ l → l.takeWhile (fun c => c ≠ '\n') = l
  | [], _ => rfl
  | c :: rest, h => by
    have hc : c ≠ '\n' := by
      intro hc
      exact h (hc ▸ List.mem_cons_self c rest)
    have hr : '\n' ∉ rest := fun hm => h (List.mem_cons_of_mem c hm)
    simp only [List.takeWhile]
    simp [hc]
    exact fun x hx hx' => hr (hx' ▸ hx)

/-! ## The claims -/

/-- C1: On a live slot of kind Message, `pick__deliver_msg` invokes the
message callback with exactly the browser-index table result of spec
§4.2 for the slot's stored button configuration (OK: 0→OK; OK_CANCEL:
0→CANCEL, 1→OK; YES_NO: 0→NO, 1→YES; YES_NO_CANCEL: 0→CANCEL, 1→NO,
2→YES; any index outside the configuration's defined range → CLOSED),
and on a live slot of kind Export it invokes the result callback with
success if and only if the index equals 0. -/
theorem C1_deliver_msg_matches_browser_table (st : EmState)
    (id button_idx : Int) (h1 : 1 ≤ id) (h2 : id < PICK_EM_MAX_REQUESTS) :
    ((st.reqs id).kind = .PICK_REQ_MESSAGE → (st.reqs id).msg_cb = true →
      (pick__deliver_msg st id button_idx).2 =
        [.msg (mapBrowserIndex (st.reqs id).button_type button_idx)]) ∧
    ((st.reqs id).kind = .PICK_REQ_EXPORT → (st.reqs id).result_cb = true →
      (pick__deliver_msg st id button_idx).2 =
        [.result (decide (button_idx = 0))]) := by
  have hrange : ¬(id ≤ 0 ∨ PICK_EM_MAX_REQUESTS ≤ id) := by
    unfold PICK_EM_MAX_REQUESTS at h2 ⊢
    omega
  constructor
  · intro hk hcb
    unfold pick__deliver_msg
    rw [if_neg hrange]
    dsimp only
    rw [hk, hcb]
    cases hbt : (st.reqs id).button_type <;>
      simp [mapBrowserIndex, hbt]
  · intro hk hcb
    unfold pick__deliver_msg
    rw [if_neg hrange]
    dsimp only
    rw [hk, hcb]
    simp

/-- C1 witness: delivering browser index 2 to a live YES_NO_CANCEL
message slot invokes the message callback with YES, and delivering
index 3 to a live export slot invokes the result callback with
failure. -/
theorem C1_deliver_msg_matches_browser_table_witness :
    (pick__deliver_msg (fixtureSt msgReqYNC) 5 2).2 =
      [.msg .PICK_RESULT_YES] ∧
    (pick__deliver_msg (fixtureSt exportReq) 5 3).2 = [.result false] := by
  constructor
  · rw [(C1_deliver_msg_matches_browser_table (fixtureSt msgReqYNC) 5 2
      (by decide) (by decide)).1 (by decide) (by decide)]
    decide
  · rw [(C1_deliver_msg_matches_browser_table (fixtureSt exportReq) 5 3
      (by decide) (by decide)).2 (by decide) (by decide)]
    decide

/-- C2: `pick_objc_button_result` maps every (response, configuration)
pair exactly per spec §4.2's native table: the first-button return gives
OK/OK/YES/YES, the second-button return gives CLOSED/CANCEL/NO/NO, the
third-button return gives CANCEL only for YES_NO_CANCEL and CLOSED
otherwise, and any response value outside the three button-return
constants gives CLOSED. -/
theorem C2_objc_button_result_matches_native_table
    (response : Int) (buttons : PickButtonType) :
    pick_objc_button_result response buttons =
      mapNativeResult buttons (responsePosition response) := by
  cases buttons <;>
    unfold pick_objc_button_result responsePosition mapNativeResult <;>
    split_ifs <;> simp_all

/-- C3 counterexample: the claim "the first call dispatches exactly one
user-callback invocation when the slot was live" fails.  `pick_alert`
(fire-and-forget; it passes a NULL callback to `pick_message`) leaves
slot 1 live with kind Message and a null message callback; the first
`pick__deliver_msg` for id 1 then dispatches zero callback
invocations. -/
theorem C3_counterexample_live_slot_zero_calls :
    ((pick_alert pickEmInitState none none).1.reqs 1).kind ≠
      .PICK_REQ_NONE ∧
    (pick__deliver_msg (pick_alert pickEmInitState none none).1 1 0).2
      = [] := by
  decide

/-- C3 (amended): each of the three delivery entry points, invoked twice
in succession with the same id and payload, dispatches at most one
user-callback invocation on the first call and zero callback
invocations on the second call, the slot being already cleared by the
first. -/
theorem C3_deliver_twice_idempotent (st : EmState) (id : Int)
    (path lines : Option CStr) (button_idx : Int) :
    ((pick__deliver_single st id path).2.length ≤ 1 ∧
      (pick__deliver_single (pick__deliver_single st id path).1 id path).2
        = []) ∧
    ((pick__deliver_multi_lines st id lines).2.length ≤ 1 ∧
      (pick__deliver_multi_lines
        (pick__deliver_multi_lines st id lines).1 id lines).2 = []) ∧
    ((pick__deliver_msg st id button_idx).2.length ≤ 1 ∧
      (pick__deliver_msg
        (pick__deliver_msg st id button_idx).1 id button_idx).2 = []) := by
  by_cases hr : id ≤ 0 ∨ PICK_EM_MAX_REQUESTS ≤ id
  · refine ⟨⟨pick__deliver_single_len st id path, ?_⟩,
      ⟨pick__deliver_multi_lines_len st id lines, ?_⟩,
      ⟨pick__deliver_msg_len st id button_idx, ?_⟩⟩
    · rw [pick__deliver_single_out st id path hr,
        pick__deliver_single_out st id path hr]
    · rw [pick__deliver_multi_lines_out st id lines hr,
        pick__deliver_multi_lines_out st id lines hr]
    · rw [pick__deliver_msg_out st id button_idx hr,
        pick__deliver_msg_out st id button_idx hr]
  · have hin : 0 < id ∧ id < PICK_EM_MAX_REQUESTS := by
      unfold PICK_EM_MAX_REQUESTS at hr ⊢
      omega
    refine ⟨⟨pick__deliver_single_len st id path, ?_⟩,
      ⟨pick__deliver_multi_lines_len st id lines, ?_⟩,
      ⟨pick__deliver_msg_len st id button_idx, ?_⟩⟩
    · refine pick__deliver_single_cleared _ id path ?_
      rw [pick__deliver_single_fst, if_neg hr,
        pick__clear_req_self st id hin.1 hin.2]
    · refine pick__deliver_multi_lines_cleared _ id lines ?_
      rw [pick__deliver_multi_lines_fst, if_neg hr,
        pick__clear_req_self st id hin.1 hin.2]
    · refine pick__deliver_msg_cleared _ id button_idx ?_
      rw [pick__deliver_msg_fst, if_neg hr,
        pick__clear_req_self st id hin.1 hin.2]

/-- C4: for every state of the slot table, `pick__alloc_req` returns 0
if and only if every slot with id in [1, PICK_EM_MAX_REQUESTS-1] is
occupied, and a non-zero result is always an id in
[1, PICK_EM_MAX_REQUESTS-1] whose slot is free (in particular id 0 is
never issued as a valid id). -/
theorem C4_alloc_req_correct (st : EmState) :
    ((pick__alloc_req st).1 = 0 ↔
      ∀ j : Int, 1 ≤ j → j < PICK_EM_MAX_REQUESTS →
        (st.reqs j).kind ≠ .PICK_REQ_NONE) ∧
    ((pick__alloc_req st).1 ≠ 0 →
      1 ≤ (pick__alloc_req st).1 ∧
      (pick__alloc_req st).1 < PICK_EM_MAX_REQUESTS ∧
      (st.reqs (pick__alloc_req st).1).kind = .PICK_REQ_NONE) := by
  constructor
  · constructor
    · intro h0 j hj1 hj2 hfree
      exact pick__alloc_req_complete st j hj1 hj2 hfree h0
    · intro hsat
      exact pick__alloc_req_saturated st hsat
  · exact pick__alloc_req_sound st

/-- C4 witness: on the zero-initialised state the allocator returns a
free id in range. -/
theorem C4_alloc_req_correct_witness :
    1 ≤ (pick__alloc_req pickEmInitState).1 ∧
    (pick__alloc_req pickEmInitState).1 < PICK_EM_MAX_REQUESTS ∧
    (pickEmInitState.reqs (pick__alloc_req pickEmInitState).1).kind =
      .PICK_REQ_NONE :=
  (C4_alloc_req_correct pickEmInitState).2 (by decide)

/-- C5: when every slot is occupied, each public browser-backend dialog
operation (called with a non-null callback) immediately invokes that
callback exactly once with the cancelled/empty value — NULL path, NULL
paths with count 0, PICK_RESULT_CLOSED, or false — and leaves the slot
table unchanged (no slot allocated, no request pending). -/
theorem C5_saturation_resolves_immediately (st : EmState)
    (fopts : Option PickFileOptions) (mopts : Option PickMessageOptions)
    (src : Option CStr)
    (hsat : ∀ j : Int, 1 ≤ j → j < PICK_EM_MAX_REQUESTS →
      (st.reqs j).kind ≠ .PICK_REQ_NONE) :
    ((pick_file st fopts true).2.1 = [.single none] ∧
      (pick_file st fopts true).1.reqs = st.reqs) ∧
    ((pick_files st fopts true).2.1 = [.multi none] ∧
      (pick_files st fopts true).1.reqs = st.reqs) ∧
    ((pick_folder st fopts true).2.1 = [.single none] ∧
      (pick_folder st fopts true).1.reqs = st.reqs) ∧
    ((pick_folders st fopts true).2.1 = [.multi none] ∧
      (pick_folders st fopts true).1.reqs = st.reqs) ∧
    ((pick_save st fopts true).2.1 = [.single none] ∧
      (pick_save st fopts true).1.reqs = st.reqs) ∧
    ((pick_message st mopts true).2.1 = [.msg .PICK_RESULT_CLOSED] ∧
      (pick_message st mopts true).1.reqs = st.reqs) ∧
    ((pick_export_file st src fopts true).2.1 = [.result false] ∧
      (pick_export_file st src fopts true).1.reqs = st.reqs) := by
  have h0 : (pick__alloc_req st).1 = 0 := pick__alloc_req_saturated st hsat
  have hreqs := pick__alloc_req_reqs st
  refine ⟨⟨?_, ?_⟩, ⟨?_, ?_⟩, ⟨?_, ?_⟩, ⟨?_, ?_⟩, ⟨?_, ?_⟩, ⟨?_, ?_⟩,
    ⟨?_, ?_⟩⟩ <;>
    simp only [pick_file, pick_files, pick_folder, pick_folders, pick_save,
      pick_message, pick_export_file, h0] <;>
    simp <;>
    exact hreqs

/-- C5 witness: the saturated state, with every operation applied. -/
theorem C5_saturation_resolves_immediately_witness :
    ((pick_file satSt none true).2.1 = [.single none] ∧
      (pick_file satSt none true).1.reqs = satSt.reqs) ∧
    ((pick_files satSt none true).2.1 = [.multi none] ∧
      (pick_files satSt none true).1.reqs = satSt.reqs) ∧
    ((pick_folder satSt none true).2.1 = [.single none] ∧
      (pick_folder satSt none true).1.reqs = satSt.reqs) ∧
    ((pick_folders satSt none true).2.1 = [.multi none] ∧
      (pick_folders satSt none true).1.reqs = satSt.reqs) ∧
    ((pick_save satSt none true).2.1 = [.single none] ∧
      (pick_save satSt none true).1.reqs = satSt.reqs) ∧
    ((pick_message satSt none true).2.1 = [.msg .PICK_RESULT_CLOSED] ∧
      (pick_message satSt none true).1.reqs = satSt.reqs) ∧
    ((pick_export_file satSt none none true).2.1 = [.result false] ∧
      (pick_export_file satSt none none true).1.reqs = satSt.reqs) := by
  refine C5_saturation_resolves_immediately satSt none none none ?_
  intro j h1 h2
  simp [satSt, busyReq, emReqZero]

/-- C6: on a live slot, `pick__deliver_single` dispatches by the stored
kind: for OpenSingle, OpenDirSingle or Save it invokes the single-path
callback with the delivered path (NULL signalling cancellation); for
OpenMulti or OpenDirMulti it invokes the multi-path callback with the
empty collection (NULL, count 0); for Message it invokes the message
callback with OK. -/
theorem C6_deliver_single_dispatch (st : EmState) (id : Int)
    (path : Option CStr) (h1 : 1 ≤ id) (h2 : id < PICK_EM_MAX_REQUESTS) :
    (((st.reqs id).kind = .PICK_REQ_OPEN_SINGLE ∨
       (st.reqs id).kind = .PICK_REQ_OPEN_DIR_SINGLE ∨
       (st.reqs id).kind = .PICK_REQ_SAVE) →
      (st.reqs id).single_cb = true →
      (pick__deliver_single st id path).2 = [.single path]) ∧
    (((st.reqs id).kind = .PICK_REQ_OPEN_MULTI ∨
       (st.reqs id).kind = .PICK_REQ_OPEN_DIR_MULTI) →
      (st.reqs id).multi_cb = true →
      (pick__deliver_single st id path).2 = [.multi none]) ∧
    ((st.reqs id).kind = .PICK_REQ_MESSAGE →
      (st.reqs id).msg_cb = true →
      (pick__deliver_single st id path).2 = [.msg .PICK_RESULT_OK]) := by
  have hrange : ¬(id ≤ 0 ∨ PICK_EM_MAX_REQUESTS ≤ id) := by
    unfold PICK_EM_MAX_REQUESTS at h2 ⊢
    omega
  refine ⟨?_, ?_, ?_⟩
  · intro hk hcb
    unfold pick__deliver_single
    rw [if_neg hrange]
    dsimp only
    rcases hk with hk | hk | hk <;> rw [hk, hcb] <;> simp
  · intro hk hcb
    unfold pick__deliver_single
    rw [if_neg hrange]
    dsimp only
    rcases hk with hk | hk <;> rw [hk, hcb] <;> simp
  · intro hk hcb
    unfold pick__deliver_single
    rw [if_neg hrange]
    dsimp only
    rw [hk, hcb]
    simp

/-- C6 witness: the three dispatch shapes at concrete live slots. -/
theorem C6_deliver_single_dispatch_witness :
    (pick__deliver_single (fixtureSt singleReq) 5 (some ['a'])).2 =
      [.single (some ['a'])] ∧
    (pick__deliver_single (fixtureSt multiReq) 5 (some ['a'])).2 =
      [.multi none] ∧
    (pick__deliver_single (fixtureSt msgReqYNC) 5 (some ['a'])).2 =
      [.msg .PICK_RESULT_OK] := by
  refine ⟨?_, ?_, ?_⟩
  · exact (C6_deliver_single_dispatch (fixtureSt singleReq) 5 (some ['a'])
      (by decide) (by decide)).1 (Or.inl (by decide)) (by decide)
  · exact (C6_deliver_single_dispatch (fixtureSt multiReq) 5 (some ['a'])
      (by decide) (by decide)).2.1 (Or.inl (by decide)) (by decide)
  · exact (C6_deliver_single_dispatch (fixtureSt msgReqYNC) 5 (some ['a'])
      (by decide) (by decide)).2.2 (by decide) (by decide)

/-- C7: `pick__deliver_multi_lines` splits a newline-joined payload into
the ordered path sequence (so joining `'\n'`-free paths and delivering
gives back exactly those paths, in order, to the multi callback); an
absent or empty payload takes the cancellation path — multi callback
with (NULL, 0), or single callback with NULL when only the single
callback is stored — and never produces a one-element sequence holding
an empty string. -/
theorem C7_deliver_multi_lines_split_or_cancel (st : EmState) (id : Int)
    (h1 : 1 ≤ id) (h2 : id < PICK_EM_MAX_REQUESTS) :
    (((st.reqs id).kind = .PICK_REQ_OPEN_MULTI ∨
       (st.reqs id).kind = .PICK_REQ_OPEN_DIR_MULTI) →
      (st.reqs id).multi_cb = true →
      ∀ ps : List CStr, ps ≠ [] → (∀ p ∈ ps, '\n' ∉ p) →
        pick__join_lines ps ≠ [] →
        (pick__deliver_multi_lines st id (some (pick__join_lines ps))).2 =
          [.multi (some ps)]) ∧
    ((st.reqs id).multi_cb = true →
      (pick__deliver_multi_lines st id none).2 = [.multi none] ∧
      (pick__deliver_multi_lines st id (some [])).2 = [.multi none]) ∧
    ((st.reqs id).multi_cb = false → (st.reqs id).single_cb = true →
      (pick__deliver_multi_lines st id none).2 = [.single none] ∧
      (pick__deliver_multi_lines st id (some [])).2 = [.single none]) ∧
    (∀ l : List CStr,
      CallbackCall.multi (some l) ∉
        (pick__deliver_multi_lines st id (some [])).2) := by
  have hrange : ¬(id ≤ 0 ∨ PICK_EM_MAX_REQUESTS ≤ id) := by
    unfold PICK_EM_MAX_REQUESTS at h2 ⊢
    omega
  refine ⟨?_, ?_, ?_, ?_⟩
  · intro hk hm ps hne hnl hjne
    unfold pick__deliver_multi_lines
    rw [if_neg hrange]
    dsimp only
    rw [if_neg hjne, hm]
    rcases hk with hk | hk <;>
      rw [hk] <;> simp [pick__split_join ps hne hnl]
  · intro hm
    constructor <;>
      (unfold pick__deliver_multi_lines; rw [if_neg hrange]; dsimp only;
       rw [hm]; simp)
  · intro hm hs
    constructor <;>
      (unfold pick__deliver_multi_lines; rw [if_neg hrange]; dsimp only;
       rw [hm, hs]; simp)
  · intro l
    unfold pick__deliver_multi_lines
    rw [if_neg hrange]
    dsimp only
    cases hm : (st.reqs id).multi_cb <;>
      cases hs : (st.reqs id).single_cb <;> simp

/-- C7 witness: the 3-path scenario of spec §8 and the cancellation
paths at concrete slots. -/
theorem C7_deliver_multi_lines_split_or_cancel_witness :
    (pick__deliver_multi_lines (fixtureSt multiReq) 5
        (some ['a', '\n', 'b', '\n', 'c'])).2 =
      [.multi (some [['a'], ['b'], ['c']])] ∧
    (pick__deliver_multi_lines (fixtureSt multiReq) 5 none).2 =
      [.multi none] ∧
    (pick__deliver_multi_lines (fixtureSt singleReq) 5 (some [])).2 =
      [.single none] ∧
    CallbackCall.multi (some [[]]) ∉
      (pick__deliver_multi_lines (fixtureSt multiReq) 5 (some [])).2 := by
  refine ⟨?_, ?_, ?_, ?_⟩
  · exact (C7_deliver_multi_lines_split_or_cancel (fixtureSt multiReq) 5
      (by decide) (by decide)).1 (Or.inl (by decide)) (by decide)
      [['a'], ['b'], ['c']] (by decide) (by decide) (by decide)
  · exact ((C7_deliver_multi_lines_split_or_cancel (fixtureSt multiReq) 5
      (by decide) (by decide)).2.1 (by decide)).1
  · exact ((C7_deliver_multi_lines_split_or_cancel (fixtureSt singleReq) 5
      (by decide) (by decide)).2.2.1 (by decide) (by decide)).2
  · exact (C7_deliver_multi_lines_split_or_cancel (fixtureSt multiReq) 5
      (by decide) (by decide)).2.2.2 [[]]

/-- C8: a slot is free exactly when its kind is None — the allocator
never returns an occupied slot — and every delivery for an in-range id
resets the slot to the all-zero free value, so that when every other
slot is occupied the very next allocation reuses that id. -/
theorem C8_delivery_frees_slot (st : EmState) (id : Int)
    (h1 : 1 ≤ id) (h2 : id < PICK_EM_MAX_REQUESTS)
    (path lines : Option CStr) (button_idx : Int) :
    (pick__deliver_single st id path).1.reqs id = emReqZero ∧
    (pick__deliver_multi_lines st id lines).1.reqs id = emReqZero ∧
    (pick__deliver_msg st id button_idx).1.reqs id = emReqZero ∧
    ((pick__alloc_req st).1 ≠ 0 →
      (st.reqs (pick__alloc_req st).1).kind = .PICK_REQ_NONE) ∧
    ((∀ j : Int, 1 ≤ j → j < PICK_EM_MAX_REQUESTS → j ≠ id →
        (st.reqs j).kind ≠ .PICK_REQ_NONE) →
      (pick__alloc_req (pick__deliver_multi_lines st id lines).1).1 = id) := by
  have hrange : ¬(id ≤ 0 ∨ PICK_EM_MAX_REQUESTS ≤ id) := by
    unfold PICK_EM_MAX_REQUESTS at h2 ⊢
    omega
  have hin1 : 0 < id := h1
  have hsingle : (pick__deliver_single st id path).1.reqs id = emReqZero := by
    rw [pick__deliver_single_fst, if_neg hrange,
      pick__clear_req_self st id hin1 h2]
  have hmulti :
      (pick__deliver_multi_lines st id lines).1.reqs id = emReqZero := by
    rw [pick__deliver_multi_lines_fst, if_neg hrange,
      pick__clear_req_self st id hin1 h2]
  have hmsg : (pick__deliver_msg st id button_idx).1.reqs id = emReqZero := by
    rw [pick__deliver_msg_fst, if_neg hrange,
      pick__clear_req_self st id hin1 h2]
  refine ⟨hsingle, hmulti, hmsg, fun h => (pick__alloc_req_sound st h).2.2, ?_⟩
  intro honly
  have hst1 :
      (pick__deliver_multi_lines st id lines).1 = pick__clear_req st id := by
    rw [pick__deliver_multi_lines_fst, if_neg hrange]
  rw [hst1]
  have hkind : ((pick__clear_req st id).reqs id).kind = .PICK_REQ_NONE := by
    rw [pick__clear_req_self st id hin1 h2]
    rfl
  have hnz : (pick__alloc_req (pick__clear_req st id)).1 ≠ 0 :=
    pick__alloc_req_complete _ id h1 h2 hkind
  obtain ⟨hr1, hr2, hrfree⟩ := pick__alloc_req_sound _ hnz
  by_contra hne
  rw [pick__clear_req_other st id _ hne] at hrfree
  exact honly _ hr1 hr2 hne hrfree

/-- C8 witness: delivering the 3-path payload to the only free-able slot
clears it and the next allocation reuses its id. -/
theorem C8_delivery_frees_slot_witness :
    (pick__deliver_multi_lines (fixtureSt multiReq) 5
        (some ['a', '\n', 'b', '\n', 'c'])).1.reqs 5 = emReqZero ∧
    (pick__alloc_req
        (pick__deliver_multi_lines (fixtureSt multiReq) 5
          (some ['a', '\n', 'b', '\n', 'c'])).1).1 = 5 := by
  have h := C8_delivery_frees_slot (fixtureSt multiReq) 5 (by decide)
    (by decide) none (some ['a', '\n', 'b', '\n', 'c']) 0
  refine ⟨h.2.1, h.2.2.2.2 ?_⟩
  intro j hj1 hj2 hne
  simp [fixtureSt, hne, busyReq, emReqZero]

/-- C9: `pick_files` and `pick_folders` always open the dialog with
multiple selection enabled, whatever the caller's `allow_multiple`
flag: the macOS backend overwrites the flag to true before building the
panel, and the browser backend passes `allow_multiple = 1` to
`pick_js_open` unconditionally. -/
theorem C9_multi_selection_forced (options : Option PickFileOptions) :
    (pick_objc_panel_allows_multiple
        (some (pick_objc_pick_files_opts options)) = true ∧
      pick_objc_panel_allows_multiple
        (some (pick_objc_pick_folders_opts options)) = true) ∧
    (∀ (st : EmState) (cb : Bool) (rid : Int) (t : CStr) (d f m : Int),
      JsCall.jsOpen rid t d f m ∈ (pick_files st options cb).2.2 → m = 1) ∧
    (∀ (st : EmState) (cb : Bool) (rid : Int) (t : CStr) (d f m : Int),
      JsCall.jsOpen rid t d f m ∈ (pick_folders st options cb).2.2 →
        m = 1) := by
  refine ⟨⟨rfl, rfl⟩, ?_, ?_⟩
  · intro st cb rid t d f m hm
    simp only [pick_files] at hm
    split at hm <;> simp_all
  · intro st cb rid t d f m hm
    simp only [pick_folders] at hm
    split at hm <;> simp_all

/-- C9 witness: with `allow_multiple` explicitly false, the macOS panel
flag is still true and a concrete browser `pick_files` call passes 1. -/
theorem C9_multi_selection_forced_witness :
    pick_objc_panel_allows_multiple
        (some (pick_objc_pick_files_opts (some pickFileOptionsZero))) =
      true ∧
    pick_objc_panel_allows_multiple
        (some (pick_objc_pick_folders_opts (some pickFileOptionsZero))) =
      true ∧
    (1 : Int) = 1 := by
  refine ⟨(C9_multi_selection_forced (some pickFileOptionsZero)).1.1,
    (C9_multi_selection_forced (some pickFileOptionsZero)).1.2, ?_⟩
  exact (C9_multi_selection_forced (some pickFileOptionsZero)).2.1
    pickEmInitState true 1 [] 0 1 1 (by decide)

/-- C10: a non-empty newline-joined payload delivered to a live
OpenSingle or OpenDirSingle slot whose single callback is set makes
`pick__deliver_multi_lines` invoke the single callback with exactly the
first line of the payload — the text before the first `'\n'`, or the
whole payload when it contains no newline — discarding the rest. -/
theorem C10_deliver_multi_lines_first_line (st : EmState) (id : Int)
    (lines : CStr) (h1 : 1 ≤ id) (h2 : id < PICK_EM_MAX_REQUESTS)
    (hk : (st.reqs id).kind = .PICK_REQ_OPEN_SINGLE ∨
          (st.reqs id).kind = .PICK_REQ_OPEN_DIR_SINGLE)
    (hcb : (st.reqs id).single_cb = true)
    (hne : lines ≠ []) :
    (pick__deliver_multi_lines st id (some lines)).2 =
      [.single (some (lines.takeWhile (fun c => c ≠ '\n')))] ∧
    ('\n' ∉ lines → lines.takeWhile (fun c => c ≠ '\n') = lines) := by
  have hrange : ¬(id ≤ 0 ∨ PICK_EM_MAX_REQUESTS ≤ id) := by
    unfold PICK_EM_MAX_REQUESTS at h2 ⊢
    omega
  constructor
  · unfold pick__deliver_multi_lines
    rw [if_neg hrange]
    dsimp only
    rw [if_neg hne, if_pos ⟨hk.symm, hcb⟩]
  · exact takeWhile_no_nl lines

/-- C10 witness: payload "a\nb" to a live single slot delivers exactly
"a". -/
theorem C10_deliver_multi_lines_first_line_witness :
    (pick__deliver_multi_lines (fixtureSt singleReq) 5
        (some ['a', '\n', 'b'])).2 = [.single (some ['a'])] := by
  rw [(C10_deliver_multi_lines_first_line (fixtureSt singleReq) 5
    ['a', '\n', 'b'] (by decide) (by decide) (Or.inl (by decide))
    (by decide) (by decide)).1]
  decide

end Pick
